import Mathlib

/-!
Verification development for `gan_tester.py`: a shallow embedding of the
script's data model (real-valued tensors, an explicit random-number stream),
its two convolutional networks (`Generator` / `NoiseGenerator` and
`Discriminator`), its training loop (as a state-transition function plus an
event trace) and its top-level effects, together with theorems settling the
frozen claims about the script.
-/

/-! ## Hyperparameters (gan_tester.py lines 35-44, 219-220) -/

def workers : ℕ := 8
def batch_size : ℕ := 64
def image_size : ℕ := 64
def num_epochs : ℕ := 100
def nc : ℕ := 3
def nz : ℕ := 100
def ngf : ℕ := 64
def ndf : ℕ := 16
def real_label : ℕ := 1
def fake_label : ℕ := 0

/-! ## Tensor model

A tensor is a shape, a device tag and a total data function from
multi-indices to real values (indices outside the shape read junk, which no
theorem depends on). -/

structure RTensor where
  shape : List ℕ
  device : ℕ
  data : List ℕ → ℝ

instance : Inhabited RTensor := ⟨⟨[], 0, fun _ => 0⟩⟩

/-- `t.size(n)` of the source: the `n`-th entry of the shape. -/
def sizeAt (t : RTensor) (n : ℕ) : ℕ := t.shape.getD n 0

/-- Row-major linearisation of a multi-index, used to make the random-number
draw of `torch.randn` a deterministic function of the generator state. -/
def linIndex : List ℕ → List ℕ → ℕ
  | _, [] => 0
  | [], _ :: _ => 0
  | _ :: ds, i :: is => i * ds.prod + linIndex ds is

/-- The state of the pseudo-random generator: the stream of values it will
produce next. -/
structure RNG where
  stream : ℕ → ℝ

/-- `torch.randn(shape, device=dev)`: fills a fresh tensor from the random
stream and advances the generator past the drawn values. -/
def randn (shape : List ℕ) (dev : ℕ) (r : RNG) : RTensor × RNG :=
  (⟨shape, dev, fun idx => r.stream (linIndex shape idx)⟩,
   ⟨fun n => r.stream (n + shape.prod)⟩)

/-- `t[:, i]`: select index `i` along dimension 1. -/
def sliceSeq (t : RTensor) (i : ℕ) : RTensor :=
  { shape := t.shape.headD 0 :: t.shape.drop 2
    device := t.device
    data := fun idx =>
      match idx with
      | b :: rest => t.data (b :: i :: rest)
      | [] => 0 }

/-- `torch.stack(ys, dim=1)` on a non-empty list of same-shaped tensors
(`torch.stack` of an empty list raises, which the junk value at `[]` models). -/
def stack1 : List RTensor → RTensor
  | [] => ⟨[], 0, fun _ => 0⟩
  | y :: ys =>
    { shape := y.shape.headD 0 :: (y :: ys).length :: y.shape.tail
      device := y.device
      data := fun idx =>
        match idx with
        | b :: s :: rest => ((y :: ys).getD s default).data (b :: rest)
        | _ => 0 }

/-- An elementwise activation layer. -/
def pointwise (f : ℝ → ℝ) (t : RTensor) : RTensor :=
  { shape := t.shape, device := t.device, data := fun idx => f (t.data idx) }

noncomputable def sigmoid (x : ℝ) : ℝ := 1 / (1 + Real.exp (-x))

def relu (x : ℝ) : ℝ := max 0 x

noncomputable def leakyRelu (a x : ℝ) : ℝ := if 0 ≤ x then x else a * x

/-- Spatial size produced by `nn.Conv2d` with kernel `k`, stride `s`,
padding `p`. -/
def convOut (d k s p : ℕ) : ℕ := (d + 2 * p - k) / s + 1

/-- Spatial size produced by `nn.ConvTranspose2d` with kernel `k`, stride
`s`, padding `p`. -/
def convTOut (d k s p : ℕ) : ℕ := (d - 1) * s + k - 2 * p

/-- Reading the input of a convolution through its zero padding. -/
def padded (t : RTensor) (b c ri ci p : ℕ) : ℝ :=
  if p ≤ ri ∧ ri < sizeAt t 2 + p ∧ p ≤ ci ∧ ci < sizeAt t 3 + p then
    t.data [b, c, ri - p, ci - p]
  else 0

/-- `nn.Conv2d(inC, outC, k, s, p, bias=False)` on a `[n, inC, h, w]` input. -/
noncomputable def conv2d (W : ℕ → ℕ → ℕ → ℕ → ℝ) (inC outC k s p : ℕ)
    (t : RTensor) : RTensor :=
  { shape :=
      match t.shape with
      | [n, _, h, w] => [n, outC, convOut h k s p, convOut w k s p]
      | _ => []
    device := t.device
    data := fun idx =>
      match idx with
      | [b, oc, i, j] =>
          ∑ ic ∈ Finset.range inC, ∑ ki ∈ Finset.range k, ∑ kj ∈ Finset.range k,
            W oc ic ki kj * padded t b ic (s * i + ki) (s * j + kj) p
      | _ => 0 }

/-- `nn.ConvTranspose2d(inC, outC, k, s, p, bias=False)` on a
`[n, inC, h, w]` input. -/
noncomputable def convT2d (W : ℕ → ℕ → ℕ → ℕ → ℝ) (inC outC k s p : ℕ)
    (t : RTensor) : RTensor :=
  { shape :=
      match t.shape with
      | [n, _, h, w] => [n, outC, convTOut h k s p, convTOut w k s p]
      | _ => []
    device := t.device
    data := fun idx =>
      match idx with
      | [b, oc, i, j] =>
          ∑ ic ∈ Finset.range inC, ∑ a ∈ Finset.range (sizeAt t 2),
            ∑ c ∈ Finset.range (sizeAt t 3), ∑ ki ∈ Finset.range k,
              ∑ kj ∈ Finset.range k,
                if i + p = s * a + ki ∧ j + p = s * c + kj then
                  W ic oc ki kj * t.data [b, ic, a, c]
                else 0
      | _ => 0 }

/-- `nn.BatchNorm2d` in training mode: normalise by per-channel batch
statistics, then scale and shift. -/
noncomputable def batchNorm (g bta : ℕ → ℝ) (t : RTensor) : RTensor :=
  { shape := t.shape
    device := t.device
    data := fun idx =>
      match idx with
      | [b, c, i, j] =>
          let n := sizeAt t 0
          let h := sizeAt t 2
          let w := sizeAt t 3
          let cnt : ℝ := (n * h * w : ℕ)
          let mu : ℝ :=
            (∑ b2 ∈ Finset.range n, ∑ i2 ∈ Finset.range h,
              ∑ j2 ∈ Finset.range w, t.data [b2, c, i2, j2]) / cnt
          let va : ℝ :=
            (∑ b2 ∈ Finset.range n, ∑ i2 ∈ Finset.range h,
              ∑ j2 ∈ Finset.range w, (t.data [b2, c, i2, j2] - mu) ^ 2) / cnt
          g c * (t.data [b, c, i, j] - mu) / Real.sqrt (va + 1 / 100000) + bta c
      | _ => 0 }

/-! ## The two networks (gan_tester.py lines 106-197) -/

/-- Weights of one network: convolution filters per layer, and BatchNorm
scale/shift per layer and channel. -/
structure NetWeights where
  conv : ℕ → ℕ → ℕ → ℕ → ℕ → ℝ
  bng : ℕ → ℕ → ℝ
  bnb : ℕ → ℕ → ℝ

/-- `Discriminator.model` (lines 170-189), with `n_features = 16`. -/
noncomputable def dModel (w : NetWeights) (t : RTensor) : RTensor :=
  let l1 := pointwise (leakyRelu (2 / 10)) (conv2d (w.conv 0) 3 16 4 2 1 t)
  let l2 := pointwise (leakyRelu (2 / 10))
    (batchNorm (w.bng 1) (w.bnb 1) (conv2d (w.conv 1) 16 32 4 2 1 l1))
  let l3 := pointwise (leakyRelu (2 / 10))
    (batchNorm (w.bng 2) (w.bnb 2) (conv2d (w.conv 2) 32 64 4 2 1 l2))
  let l4 := pointwise (leakyRelu (2 / 10))
    (batchNorm (w.bng 3) (w.bnb 3) (conv2d (w.conv 3) 64 128 4 2 1 l3))
  pointwise sigmoid (conv2d (w.conv 4) 128 1 4 1 0 l4)

/-- `Discriminator.forward` (lines 191-197): apply the model to each
sequence slice and stack along dimension 1. -/
noncomputable def dForward (w : NetWeights) (img : RTensor) : RTensor :=
  stack1 ((List.range (sizeAt img 1)).map fun i => dModel w (sliceSeq img i))

/-- `NoiseGenerator.main` (lines 135-156), with `n_features = 64`,
`n_latent = 100`. -/
noncomputable def ngMain (w : NetWeights) (t : RTensor) : RTensor :=
  let l1 := pointwise relu
    (batchNorm (w.bng 0) (w.bnb 0) (convT2d (w.conv 0) 100 512 4 1 0 t))
  let l2 := pointwise relu
    (batchNorm (w.bng 1) (w.bnb 1) (convT2d (w.conv 1) 512 256 4 2 1 l1))
  let l3 := pointwise relu
    (batchNorm (w.bng 2) (w.bnb 2) (convT2d (w.conv 2) 256 128 4 2 1 l2))
  let l4 := pointwise relu
    (batchNorm (w.bng 3) (w.bnb 3) (convT2d (w.conv 3) 128 64 4 2 1 l3))
  pointwise Real.tanh (convT2d (w.conv 4) 64 3 4 2 1 l4)

/-- `NoiseGenerator.forward` (lines 158-160): draw fresh noise of shape
`[x.size(0), n_latent, 1, 1]` on `x`'s device and run the main stack on the
noise; the values of `x` are never read. -/
noncomputable def ngForward (w : NetWeights) (x : RTensor) (r : RNG) :
    RTensor × RNG :=
  let p := randn [x.shape.headD 0, 100, 1, 1] x.device r
  (ngMain w p.1, p.2)

/-- `Generator.forward` (lines 112-125): apply `self.g` to each sequence
slice (threading the random-number generator) and stack along dimension 1. -/
noncomputable def gForward (w : NetWeights) (x : RTensor) (r : RNG) :
    RTensor × RNG :=
  let res := (List.range (sizeAt x 1)).foldl
    (fun acc i =>
      let p := ngForward w (sliceSeq x i) acc.2
      (acc.1 ++ [p.1], p.2))
    (([] : List RTensor), r)
  (stack1 res.1, res.2)

/-! ## One training-loop iteration at the tensor level (lines 248-264) -/

/-- One sample batch of the `RAVDESSDSPix2Pix` dataset: the landmark half
`data['A']` and the image half `data['B']`. -/
structure Batch where
  A : RTensor
  B : RTensor

/-- The latent-noise shape drawn in the training loop (line 262):
`torch.randn(b_size, real_cpu.size(1), 1, 1, device=device)`. -/
def loopNoiseShape (bsize seqLen : ℕ) : List ℕ := [bsize, seqLen, 1, 1]

/-- Lines 248-264 of the training loop: read the real batch `data['B']`,
take its batch size, draw fresh latent noise and produce
`fake = netG(noise)`.  `data['A']` is never read. -/
noncomputable def loopFake (w : NetWeights) (r : RNG) (d : Batch) :
    RTensor × RNG :=
  let real_cpu := d.B
  let b_size := real_cpu.shape.headD 0
  let p := randn (loopNoiseShape b_size (sizeAt real_cpu 1)) real_cpu.device r
  gForward w p.1 p.2

/-! ## The training loop as an event trace (lines 238-309) -/

/-- The tensors the discriminator is applied to inside one iteration. -/
inductive DInput
  | realBatch
  | fakeDetached
  | fakeBatch
deriving DecidableEq

/-- The tensor the generator is applied to. -/
inductive GInput
  | noiseTensor
  | dataA
  | dataB
  | fixedNoise
deriving DecidableEq

/-- The observable operations of one training-loop iteration, in program
order. -/
inductive Event
  | zeroGradD
  | forwardD (i : DInput)
  | computeErrDReal
  | backwardDReal
  | sampleNoise (shape : List ℕ)
  | forwardG (i : GInput)
  | fillLabel (l : ℕ)
  | computeErrDFake
  | backwardDFake
  | computeErrD
  | stepD
  | zeroGradG
  | computeErrG (target : ℕ)
  | backwardG
  | stepG
  | printStats
  | appendGLoss
  | appendDLoss
  | snapshotForward (gradEnabled : Bool)
  | appendImg
  | incrIters
  | saveToDisk
deriving DecidableEq

/-- Section "(1) Update D network" (lines 246-276). -/
def dPhase (bsize seqLen : ℕ) : List Event :=
  [Event.zeroGradD,
   Event.forwardD DInput.realBatch,
   Event.computeErrDReal,
   Event.backwardDReal,
   Event.sampleNoise (loopNoiseShape bsize seqLen),
   Event.forwardG GInput.noiseTensor,
   Event.fillLabel fake_label,
   Event.forwardD DInput.fakeDetached,
   Event.computeErrDFake,
   Event.backwardDFake,
   Event.computeErrD,
   Event.stepD]

/-- Section "(2) Update G network" (lines 281-291). -/
def gPhase : List Event :=
  [Event.zeroGradG,
   Event.fillLabel real_label,
   Event.forwardD DInput.fakeBatch,
   Event.computeErrG real_label,
   Event.backwardG,
   Event.stepG]

/-- The guard of the snapshot branch (line 304):
`(iters % 500 == 0) or ((epoch == num_epochs-1) and (i == len(dataloader)-1))`. -/
def snapshotCond (iters epoch i lenDL : ℕ) : Bool :=
  (iters % 500 == 0) || ((epoch == num_epochs - 1) && (i == lenDL - 1))

/-- The bookkeeping tail of one iteration (lines 293-309): the periodic
stats print, the two loss appends, the conditional fixed-noise snapshot
taken under `torch.no_grad()`, and the `iters` increment. -/
def bookkeeping (iters epoch i lenDL : ℕ) : List Event :=
  (if i % 50 == 0 then [Event.printStats] else [])
  ++ [Event.appendGLoss, Event.appendDLoss]
  ++ (if snapshotCond iters epoch i lenDL then
        [Event.snapshotForward false, Event.appendImg]
      else [])
  ++ [Event.incrIters]

/-- The full event trace of one iteration of the inner loop. -/
def iterEvents (bsize seqLen iters epoch i lenDL : ℕ) : List Event :=
  dPhase bsize seqLen ++ gPhase ++ bookkeeping iters epoch i lenDL

def isStepD : Event → Bool
  | Event.stepD => true
  | _ => false

def isStepG : Event → Bool
  | Event.stepG => true
  | _ => false

def isBackwardDReal : Event → Bool
  | Event.backwardDReal => true
  | _ => false

def isBackwardDFake : Event → Bool
  | Event.backwardDFake => true
  | _ => false

def isBackwardG : Event → Bool
  | Event.backwardG => true
  | _ => false

/-- Events belonging to the discriminator's parameter update. -/
def isDUpdate : Event → Bool
  | Event.zeroGradD => true
  | Event.backwardDReal => true
  | Event.backwardDFake => true
  | Event.stepD => true
  | _ => false

/-- Events belonging to the generator's parameter update. -/
def isGUpdate : Event → Bool
  | Event.zeroGradG => true
  | Event.backwardG => true
  | Event.stepG => true
  | _ => false

def isAppendImg : Event → Bool
  | Event.appendImg => true
  | _ => false

def isSnapshot : Event → Bool
  | Event.snapshotForward _ => true
  | _ => false

/-- A snapshot forward pass taken with gradient tracking enabled. -/
def gradOnSnapshot : Event → Bool
  | Event.snapshotForward g => g
  | _ => false

def isForwardGNoise : Event → Bool
  | Event.forwardG GInput.noiseTensor => true
  | _ => false

def isForwardGDataA : Event → Bool
  | Event.forwardG GInput.dataA => true
  | _ => false

def isSaveToDisk : Event → Bool
  | Event.saveToDisk => true
  | _ => false

def isComputeErrGAt (t : ℕ) : Event → Bool
  | Event.computeErrG x => x == t
  | _ => false

/-- The noise shape sampled by an event, when it samples one. -/
def noiseShapeOf : Event → Option (List ℕ)
  | Event.sampleNoise s => some s
  | _ => none

/-! ## The training loop as a state-transition system (lines 231-309) -/

/-- The bookkeeping state of the training loop: the snapshot list (each
entry recorded by the `iters` value at which it was taken), the two loss
lists and the global iteration counter. -/
structure LoopState where
  imgList : List ℕ
  gLosses : List ℝ
  dLosses : List ℝ
  iters : ℕ

def initState : LoopState := ⟨[], [], [], 0⟩

/-- One iteration of the inner loop as a state update.  `env t` supplies
the numeric values `(errG.item(), errD.item())` computed by the framework
at global iteration `t`. -/
def iterBody (env : ℕ → ℝ × ℝ) (lenDL epoch i : ℕ) (st : LoopState) :
    LoopState :=
  { imgList :=
      if snapshotCond st.iters epoch i lenDL then st.imgList ++ [st.iters]
      else st.imgList
    gLosses := st.gLosses ++ [(env st.iters).1]
    dLosses := st.dLosses ++ [(env st.iters).2]
    iters := st.iters + 1 }

/-- The batches of one epoch, as `(epoch, i)` pairs of
`for i, data in enumerate(dataloader, 0)` over a dataloader of `n` batches. -/
def epochSched (n ep : ℕ) : List (ℕ × ℕ) :=
  (List.range n).map fun i => (ep, i)

/-- The flattened iteration schedule of the two nested `for` loops
(lines 238-240). -/
def schedule (n : ℕ) : List (ℕ × ℕ) :=
  (List.range num_epochs).foldr (fun ep acc => epochSched n ep ++ acc) []

/-- Run the training loop over a dataloader of `n` batches. -/
def runLoop (env : ℕ → ℝ × ℝ) (n : ℕ) : LoopState :=
  (schedule n).foldl (fun st t => iterBody env n t.1 t.2 st) initState

/-- Run only the first `m` iterations of the training loop. -/
def runUpTo (env : ℕ → ℝ × ℝ) (n m : ℕ) : LoopState :=
  ((schedule n).take m).foldl (fun st t => iterBody env n t.1 t.2 st) initState

/-! ## Top-level script effects -/

/-- The three plot files the script writes. -/
inductive PlotFile
  | trainingImages
  | lossesPlot
  | realAndFake
deriving DecidableEq

/-- The effectful top-level operations of the script, including the kinds
of effect (parameter/optimizer/checkpoint serialization, thread spawning,
locking) that the script never performs. -/
inductive ScriptEffect
  | printOut
  | seedSet
  | datasetInit
  | dataLoaderInit (numWorkers : ℕ)
  | dataLoaderRead
  | deviceSelect
  | plotFigure
  | savePlot (f : PlotFile)
  | netGInit
  | netDInit
  | applyWeights
  | criterionInit
  | fixedNoiseSample
  | optimizerDInit
  | optimizerGInit
  | runTraining
  | saveModelParams
  | saveOptimizerState
  | saveCheckpoint
  | spawnThread
  | acquireLock
  | joinThread
deriving DecidableEq

/-- The top-level effects of `gan_tester.py` in program order
(lines 24, 25-26, 57, 70, 73, 78, 80, 85-90, 203-207, 212, 216, 223-224,
236, 238-309, 314-322, 337-352). -/
def scriptEffects : List ScriptEffect :=
  [ScriptEffect.printOut,
   ScriptEffect.seedSet,
   ScriptEffect.datasetInit,
   ScriptEffect.printOut,
   ScriptEffect.dataLoaderInit workers,
   ScriptEffect.deviceSelect,
   ScriptEffect.printOut,
   ScriptEffect.dataLoaderRead,
   ScriptEffect.plotFigure,
   ScriptEffect.savePlot PlotFile.trainingImages,
   ScriptEffect.netGInit,
   ScriptEffect.applyWeights,
   ScriptEffect.netDInit,
   ScriptEffect.applyWeights,
   ScriptEffect.criterionInit,
   ScriptEffect.fixedNoiseSample,
   ScriptEffect.optimizerDInit,
   ScriptEffect.optimizerGInit,
   ScriptEffect.printOut,
   ScriptEffect.runTraining,
   ScriptEffect.plotFigure,
   ScriptEffect.savePlot PlotFile.lossesPlot,
   ScriptEffect.dataLoaderRead,
   ScriptEffect.plotFigure,
   ScriptEffect.savePlot PlotFile.realAndFake]

/-- The plot file saved by an effect, when it saves one. -/
def savedPlotOf : ScriptEffect → Option PlotFile
  | ScriptEffect.savePlot f => some f
  | _ => none

/-- Effects that serialize model parameters, optimizer state or a training
checkpoint. -/
def isPersistEffect : ScriptEffect → Bool
  | ScriptEffect.saveModelParams => true
  | ScriptEffect.saveOptimizerState => true
  | ScriptEffect.saveCheckpoint => true
  | _ => false

/-- Effects that write a file to disk. -/
def isFileWriteEffect : ScriptEffect → Bool
  | ScriptEffect.savePlot _ => true
  | ScriptEffect.saveModelParams => true
  | ScriptEffect.saveOptimizerState => true
  | ScriptEffect.saveCheckpoint => true
  | _ => false

/-- Concurrency-coordination primitives the script could use itself. -/
def isConcurrencyPrim : ScriptEffect → Bool
  | ScriptEffect.spawnThread => true
  | ScriptEffect.acquireLock => true
  | ScriptEffect.joinThread => true
  | _ => false

/-- The worker count an effect hands to the data-loading framework. -/
def loaderWorkersOf : ScriptEffect → Option ℕ
  | ScriptEffect.dataLoaderInit k => some k
  | _ => none

/-! ## The DCGAN-tutorial reference update (for the refinement claim) -/

/-- Modelled from the spec: the DCGAN tutorial's recorded discriminator
loss, the sum `errD_real + errD_fake` of the real-batch and fake-batch BCE
losses. -/
noncomputable def tutorialErrD (r f : ℝ) : ℝ := r + f

/-- Modelled from the spec: the DCGAN tutorial's latent-noise shape
`[batch, nz=100, 1, 1]`. -/
def tutorialNoiseShape (bsize : ℕ) : List ℕ := [bsize, nz, 1, 1]

/-- Modelled from the spec: the DCGAN tutorial's generator loss targets the
real label when re-scoring the fake batch. -/
def tutorialGTarget : ℕ := real_label

/-- The discriminator loss the script records (line 274):
`errD = 0.5 * (errD_real + errD_fake)`. -/
noncomputable def errD_recorded (errD_real errD_fake : ℝ) : ℝ :=
  (1 / 2) * (errD_real + errD_fake)

/-- The label the script's generator loss targets (lines 282-286). -/
def loopGTarget : ℕ := real_label

/-! ## Helper lemmas about the event trace -/

lemma countP_bookkeeping (q : Event → Bool) (it ep i n : ℕ)
    (h1 : q Event.printStats = false) (h2 : q Event.appendGLoss = false)
    (h3 : q Event.appendDLoss = false)
    (h4 : q (Event.snapshotForward false) = false)
    (h5 : q Event.appendImg = false) (h6 : q Event.incrIters = false) :
    (bookkeeping it ep i n).countP q = 0 := by
  unfold bookkeeping
  cases h50 : (i % 50 == 0) <;> cases hsc : snapshotCond it ep i n <;>
    simp [h50, hsc, List.countP_cons, List.countP_append, h1, h2, h3, h4, h5, h6]

lemma filterMap_noiseShape_bookkeeping (it ep i n : ℕ) :
    (bookkeeping it ep i n).filterMap noiseShapeOf = [] := by
  unfold bookkeeping
  cases h50 : (i % 50 == 0) <;> cases hsc : snapshotCond it ep i n <;>
    simp [h50, hsc, noiseShapeOf]

/-- C3: in every iteration's event trace, the discriminator update (one
backward pass on the real batch, one on the fake batch, then exactly one
`optimizerD.step`) occupies a prefix that ends with `stepD` and contains no
generator-update event, and everything of the generator's update (its
backward pass and its single `optimizerG.step`) happens in the remaining
suffix, which contains no discriminator-update event. -/
theorem optimizer_steps_alternate (b s it ep i n : ℕ) :
    iterEvents b s it ep i n = dPhase b s ++ (gPhase ++ bookkeeping it ep i n)
    ∧ (dPhase b s).countP isStepD = 1
    ∧ (dPhase b s).countP isBackwardDReal = 1
    ∧ (dPhase b s).countP isBackwardDFake = 1
    ∧ (dPhase b s).countP isGUpdate = 0
    ∧ (dPhase b s).getLast? = some Event.stepD
    ∧ (gPhase ++ bookkeeping it ep i n).countP isStepG = 1
    ∧ (gPhase ++ bookkeeping it ep i n).countP isBackwardG = 1
    ∧ (gPhase ++ bookkeeping it ep i n).countP isDUpdate = 0
    ∧ (iterEvents b s it ep i n).countP isStepD = 1
    ∧ (iterEvents b s it ep i n).countP isStepG = 1 := by
  have hbkG : (bookkeeping it ep i n).countP isStepG = 0 :=
    countP_bookkeeping _ _ _ _ _ rfl rfl rfl rfl rfl rfl
  have hbkBG : (bookkeeping it ep i n).countP isBackwardG = 0 :=
    countP_bookkeeping _ _ _ _ _ rfl rfl rfl rfl rfl rfl
  have hbkD : (bookkeeping it ep i n).countP isDUpdate = 0 :=
    countP_bookkeeping _ _ _ _ _ rfl rfl rfl rfl rfl rfl
  have hbkSD : (bookkeeping it ep i n).countP isStepD = 0 :=
    countP_bookkeeping _ _ _ _ _ rfl rfl rfl rfl rfl rfl
  refine ⟨by rw [iterEvents, List.append_assoc], rfl, rfl, rfl, rfl, rfl,
    ?_, ?_, ?_, ?_, ?_⟩
  · rw [List.countP_append, hbkG]; rfl
  · rw [List.countP_append, hbkBG]; rfl
  · rw [List.countP_append, hbkD]; rfl
  · rw [iterEvents, List.countP_append, List.countP_append, hbkSD]; rfl
  · rw [iterEvents, List.countP_append, List.countP_append, hbkG]; rfl

/-- C5: the snapshot list grows by one entry exactly when the pre-increment
`iters` is a multiple of 500 or the current batch is the last batch of the
last epoch (the guard of line 304); the snapshot's forward pass in the
event trace always has gradient tracking disabled; in every other iteration
nothing is appended. -/
theorem snapshot_exactly_on_guard (env : ℕ → ℝ × ℝ) (b s ep i n : ℕ)
    (st : LoopState) :
    ((iterBody env n ep i st).imgList =
      if snapshotCond st.iters ep i n then st.imgList ++ [st.iters]
      else st.imgList)
    ∧ (snapshotCond st.iters ep i n = true ↔
        (st.iters % 500 = 0 ∨ (ep = num_epochs - 1 ∧ i = n - 1)))
    ∧ (iterEvents b s st.iters ep i n).countP gradOnSnapshot = 0
    ∧ (iterEvents b s st.iters ep i n).countP isAppendImg =
        (if snapshotCond st.iters ep i n then 1 else 0)
    ∧ (iterEvents b s st.iters ep i n).countP isSnapshot =
        (if snapshotCond st.iters ep i n then 1 else 0) := by
  refine ⟨rfl, ?_, ?_, ?_, ?_⟩
  · simp [snapshotCond]
  · rw [iterEvents, List.countP_append, List.countP_append,
      countP_bookkeeping _ _ _ _ _ rfl rfl rfl rfl rfl rfl]
    rfl
  · rw [iterEvents, List.countP_append, List.countP_append]
    have hbk : (bookkeeping st.iters ep i n).countP isAppendImg =
        (if snapshotCond st.iters ep i n then 1 else 0) := by
      unfold bookkeeping
      cases h50 : (i % 50 == 0) <;> cases hsc : snapshotCond st.iters ep i n <;>
        simp [h50, hsc, List.countP_cons, List.countP_append, isAppendImg]
    rw [hbk]
    cases hsc : snapshotCond st.iters ep i n <;> rfl
  · rw [iterEvents, List.countP_append, List.countP_append]
    have hbk : (bookkeeping st.iters ep i n).countP isSnapshot =
        (if snapshotCond st.iters ep i n then 1 else 0) := by
      unfold bookkeeping
      cases h50 : (i % 50 == 0) <;> cases hsc : snapshotCond st.iters ep i n <;>
        simp [h50, hsc, List.countP_cons, List.countP_append, isSnapshot]
    rw [hbk]
    cases hsc : snapshotCond st.iters ep i n <;> rfl

/-- C4, counterexample: the script's recorded discriminator loss
`0.5 * (errD_real + errD_fake)` differs from the DCGAN tutorial's sum at
`errD_real = errD_fake = 1`, and the latent noise drawn for a
sequence-length-1 batch has shape `[64, 1, 1, 1]`, not the tutorial's
`[64, nz=100, 1, 1]`. -/
theorem loop_differs_from_tutorial :
    errD_recorded 1 1 ≠ tutorialErrD 1 1
    ∧ loopNoiseShape batch_size 1 ≠ tutorialNoiseShape batch_size := by
  constructor
  · unfold errD_recorded tutorialErrD
    norm_num
  · unfold loopNoiseShape tutorialNoiseShape nz
    simp

/-- C4, amended: the loop follows the tutorial's update structure — the
generator loss re-scores the fake batch against the real label, computed
exactly once per iteration — but the recorded discriminator loss is half
the tutorial's sum, and the latent noise has shape
`[batch, sequence_length, 1, 1]` instead of `[batch, 100, 1, 1]`. -/
theorem loop_matches_tutorial_up_to_noise_and_scale :
    (∀ r f : ℝ, errD_recorded r f = (1 / 2) * tutorialErrD r f)
    ∧ (∀ bsize seqLen : ℕ, loopNoiseShape bsize seqLen = [bsize, seqLen, 1, 1])
    ∧ loopGTarget = tutorialGTarget
    ∧ gPhase.countP (isComputeErrGAt tutorialGTarget) = 1
    ∧ (∀ b s it ep i n,
        (iterEvents b s it ep i n).countP (isComputeErrGAt tutorialGTarget) = 1) := by
  refine ⟨fun r f => rfl, fun bsize seqLen => rfl, rfl, rfl, ?_⟩
  intro b s it ep i n
  rw [iterEvents, List.countP_append, List.countP_append,
    countP_bookkeeping _ _ _ _ _ rfl rfl rfl rfl rfl rfl]
  rfl

/-- C6: the script's only file writes are the three plot images
(`Training_images.png`, `losses.png`, `real_and_fake.png`); no effect
serializes model parameters, optimizer state or a checkpoint, and no
iteration of the training loop writes to disk. -/
theorem no_persistence_format :
    scriptEffects.filterMap savedPlotOf =
      [PlotFile.trainingImages, PlotFile.lossesPlot, PlotFile.realAndFake]
    ∧ scriptEffects.countP isPersistEffect = 0
    ∧ scriptEffects.countP isFileWriteEffect = 3
    ∧ ∀ b s it ep i n, (iterEvents b s it ep i n).countP isSaveToDisk = 0 := by
  refine ⟨rfl, rfl, rfl, ?_⟩
  intro b s it ep i n
  rw [iterEvents, List.countP_append, List.countP_append,
    countP_bookkeeping _ _ _ _ _ rfl rfl rfl rfl rfl rfl]
  rfl

/-- C8: the script performs no concurrency coordination of its own: its
effect trace contains no thread-spawn, lock or join primitive, and the only
parallelism configuration is the `num_workers = workers = 8` argument
handed to the external framework's `DataLoader`. -/
theorem no_concurrency_coordination :
    scriptEffects.countP isConcurrencyPrim = 0
    ∧ scriptEffects.filterMap loaderWorkersOf = [workers]
    ∧ workers = 8 :=
  ⟨rfl, rfl, rfl⟩

/-! ## Helper lemmas about the loop's state transitions -/

lemma foldl_iterBody_iters (env : ℕ → ℝ × ℝ) (n : ℕ) :
    ∀ (l : List (ℕ × ℕ)) (st : LoopState),
      (l.foldl (fun st t => iterBody env n t.1 t.2 st) st).iters =
        st.iters + l.length := by
  intro l
  induction l with
  | nil => intro st; simp
  | cons a l ih =>
    intro st
    rw [List.foldl_cons, ih]
    show (iterBody env n a.1 a.2 st).iters + l.length = _
    rw [show (iterBody env n a.1 a.2 st).iters = st.iters + 1 from rfl]
    simp only [List.length_cons]
    omega

lemma foldl_iterBody_glen (env : ℕ → ℝ × ℝ) (n : ℕ) :
    ∀ (l : List (ℕ × ℕ)) (st : LoopState),
      (l.foldl (fun st t => iterBody env n t.1 t.2 st) st).gLosses.length =
        st.gLosses.length + l.length := by
  intro l
  induction l with
  | nil => intro st; simp
  | cons a l ih =>
    intro st
    rw [List.foldl_cons, ih]
    show (iterBody env n a.1 a.2 st).gLosses.length + l.length = _
    rw [show (iterBody env n a.1 a.2 st).gLosses =
      st.gLosses ++ [(env st.iters).1] from rfl]
    simp only [List.length_append, List.length_cons, List.length_nil]
    omega

lemma foldl_iterBody_dlen (env : ℕ → ℝ × ℝ) (n : ℕ) :
    ∀ (l : List (ℕ × ℕ)) (st : LoopState),
      (l.foldl (fun st t => iterBody env n t.1 t.2 st) st).dLosses.length =
        st.dLosses.length + l.length := by
  intro l
  induction l with
  | nil => intro st; simp
  | cons a l ih =>
    intro st
    rw [List.foldl_cons, ih]
    show (iterBody env n a.1 a.2 st).dLosses.length + l.length = _
    rw [show (iterBody env n a.1 a.2 st).dLosses =
      st.dLosses ++ [(env st.iters).2] from rfl]
    simp only [List.length_append, List.length_cons, List.length_nil]
    omega

lemma epochSched_length (n ep : ℕ) : (epochSched n ep).length = n := by
  simp [epochSched]

lemma sched_foldr_length (n : ℕ) :
    ∀ l : List ℕ,
      (l.foldr (fun ep acc => epochSched n ep ++ acc) []).length = l.length * n := by
  intro l
  induction l with
  | nil => simp
  | cons a l ih =>
    rw [List.foldr_cons, List.length_append, epochSched_length, ih,
      List.length_cons, Nat.succ_mul, Nat.add_comm]

lemma schedule_length (n : ℕ) : (schedule n).length = num_epochs * n := by
  rw [schedule, sched_foldr_length, List.length_range]

lemma mem_epochSched (n ep ep2 i2 : ℕ) :
    (ep2, i2) ∈ epochSched n ep ↔ ep = ep2 ∧ i2 < n := by
  unfold epochSched
  rw [List.mem_map]
  constructor
  · rintro ⟨a, ha, heq⟩
    injection heq with h1 h2
    subst h2
    exact ⟨h1, List.mem_range.mp ha⟩
  · rintro ⟨rfl, h⟩
    exact ⟨i2, List.mem_range.mpr h, rfl⟩

lemma mem_sched_foldr (n ep2 i2 : ℕ) :
    ∀ l : List ℕ,
      ((ep2, i2) ∈ l.foldr (fun ep acc => epochSched n ep ++ acc) [] ↔
        (ep2 ∈ l ∧ i2 < n)) := by
  intro l
  induction l with
  | nil => simp
  | cons a l ih =>
    rw [List.foldr_cons, List.mem_append, mem_epochSched, ih, List.mem_cons]
    constructor
    · rintro (⟨rfl, h⟩ | ⟨h1, h2⟩)
      · exact ⟨Or.inl rfl, h⟩
      · exact ⟨Or.inr h1, h2⟩
    · rintro ⟨rfl | h1, h2⟩
      · exact Or.inl ⟨rfl, h2⟩
      · exact Or.inr ⟨h1, h2⟩

lemma nodup_sched_foldr (n : ℕ) :
    ∀ l : List ℕ, l.Nodup →
      (l.foldr (fun ep acc => epochSched n ep ++ acc) []).Nodup := by
  intro l
  induction l with
  | nil => intro _; simp
  | cons a l ih =>
    intro hl
    rw [List.foldr_cons, List.nodup_append]
    refine ⟨?_, ih (List.Nodup.of_cons hl), ?_⟩
    · exact (List.nodup_range n).map (fun i j h => by
        simpa using congrArg Prod.snd h)
    · intro x hx hx2
      obtain ⟨b2, i2⟩ := x
      rw [mem_epochSched] at hx
      rw [mem_sched_foldr] at hx2
      rcases hx with ⟨rfl, -⟩
      exact (List.nodup_cons.mp hl).1 hx2.1

/-- C7: the training loop terminates after exactly
`num_epochs = 100` passes over the dataloader; the flattened schedule
visits every `(epoch, batch)` pair with `epoch < 100` and `batch < n`
exactly once, and the final value of `iters` equals `100 * n` for a
dataloader of `n` batches. -/
theorem loop_terminates_after_100n_iterations (env : ℕ → ℝ × ℝ) (n : ℕ) :
    num_epochs = 100
    ∧ (schedule n).length = num_epochs * n
    ∧ (schedule n).Nodup
    ∧ (∀ ep i, ((ep, i) ∈ schedule n ↔ ep < num_epochs ∧ i < n))
    ∧ (runLoop env n).iters = 100 * n := by
  refine ⟨rfl, schedule_length n, ?_, ?_, ?_⟩
  · exact nodup_sched_foldr n _ (List.nodup_range _)
  · intro ep i
    rw [schedule, mem_sched_foldr, List.mem_range]
  · rw [runLoop, foldl_iterBody_iters, schedule_length]
    simp [initState, num_epochs]

/-- C10: after every completed iteration of the training loop the lists
`G_losses` and `D_losses` have equal length, that length equals the
iteration counter `iters`, and every single iteration appends exactly one
entry to each list while incrementing `iters` by one. -/
theorem loss_lists_track_iters (env : ℕ → ℝ × ℝ) (n m : ℕ) :
    ((runUpTo env n m).gLosses.length = (runUpTo env n m).dLosses.length
      ∧ (runUpTo env n m).gLosses.length = (runUpTo env n m).iters)
    ∧ ∀ ep i st,
        (iterBody env n ep i st).gLosses.length = st.gLosses.length + 1
        ∧ (iterBody env n ep i st).dLosses.length = st.dLosses.length + 1
        ∧ (iterBody env n ep i st).iters = st.iters + 1 := by
  refine ⟨⟨?_, ?_⟩, ?_⟩
  · rw [runUpTo, foldl_iterBody_glen, foldl_iterBody_dlen]
    simp [initState]
  · rw [runUpTo, foldl_iterBody_glen, foldl_iterBody_iters]
    simp [initState]
  · intro ep i st
    refine ⟨?_, ?_, rfl⟩
    · rw [show (iterBody env n ep i st).gLosses =
        st.gLosses ++ [(env st.iters).1] from rfl]
      simp
    · rw [show (iterBody env n ep i st).dLosses =
        st.dLosses ++ [(env st.iters).2] from rfl]
      simp

/-! ## Helper lemmas about the networks -/

lemma sliceSeq_headD (t : RTensor) (i : ℕ) :
    (sliceSeq t i).shape.headD 0 = t.shape.headD 0 := rfl

lemma sliceSeq_device (t : RTensor) (i : ℕ) :
    (sliceSeq t i).device = t.device := rfl

/-- `NoiseGenerator.forward` reads nothing of its input beyond `x.size(0)`
and `x.device`. -/
lemma ngForward_eq_of_head_dev (w : NetWeights) (r : RNG) (u1 u2 : RTensor)
    (hb : u1.shape.headD 0 = u2.shape.headD 0) (hd : u1.device = u2.device) :
    ngForward w u1 r = ngForward w u2 r := by
  unfold ngForward
  rw [hb, hd]

lemma gForward_eq_of_dims (w : NetWeights) (r : RNG) (x1 x2 : RTensor)
    (hb : x1.shape.headD 0 = x2.shape.headD 0)
    (hs : sizeAt x1 1 = sizeAt x2 1) (hd : x1.device = x2.device) :
    gForward w x1 r = gForward w x2 r := by
  unfold gForward
  rw [hs]
  have hfold :
      (List.range (sizeAt x2 1)).foldl
        (fun acc i =>
          let p := ngForward w (sliceSeq x1 i) acc.2
          (acc.1 ++ [p.1], p.2))
        (([] : List RTensor), r) =
      (List.range (sizeAt x2 1)).foldl
        (fun acc i =>
          let p := ngForward w (sliceSeq x2 i) acc.2
          (acc.1 ++ [p.1], p.2))
        (([] : List RTensor), r) := by
    refine List.foldl_ext _ _ _ ?_
    intro acc i _
    have h := ngForward_eq_of_head_dev w acc.2 (sliceSeq x1 i) (sliceSeq x2 i)
      (by rw [sliceSeq_headD, sliceSeq_headD, hb])
      (by rw [sliceSeq_device, sliceSeq_device, hd])
    simp only [h]
  rw [hfold]

/-! ## Concrete objects used as witnesses and counterexamples -/

def constT (shape : List ℕ) (v : ℝ) : RTensor := ⟨shape, 0, fun _ => v⟩

def zeroRNG : RNG := ⟨fun _ => 0⟩

def w0 : NetWeights := ⟨fun _ _ _ _ _ => 0, fun _ _ => 0, fun _ _ => 0⟩

/-- A concrete batch whose landmark half `A` is all zeros. -/
def batchA0 : Batch := ⟨constT [64, 1, 3, 64, 64] 0, constT [64, 1, 3, 64, 64] 0⟩

/-- A concrete batch with the same image half `B` but a different landmark
half `A` (all ones). -/
def batchA1 : Batch := ⟨constT [64, 1, 3, 64, 64] 1, constT [64, 1, 3, 64, 64] 0⟩

/-- C1, counterexample: in the training iteration's trace the generator is
never applied to the landmark half `data['A']` — it is applied to the
freshly drawn noise tensor — and on two concrete batches that differ in
their landmark half (but share the image half `B`) the produced fake batch
is identical, so the fakes are not a function of the landmark input. -/
theorem generator_not_applied_to_landmarks :
    (iterEvents 64 1 0 0 0 1).countP isForwardGDataA = 0
    ∧ (iterEvents 64 1 0 0 0 1).countP isForwardGNoise = 1
    ∧ batchA0.A.data [0, 0, 0, 0, 0] ≠ batchA1.A.data [0, 0, 0, 0, 0]
    ∧ loopFake w0 zeroRNG batchA0 = loopFake w0 zeroRNG batchA1 := by
  refine ⟨by decide, by decide, ?_, rfl⟩
  show (0 : ℝ) ≠ 1
  exact zero_ne_one

/-- C1, amended: in every training iteration the generator is applied
exactly once, to the freshly sampled noise tensor of shape
`[b_size, real_cpu.size(1), 1, 1]` (the only noise drawn in the trace), and
never to the landmark half `data['A']`; consequently the fake batch is
identical for any two data batches whose image halves `B` agree in shape
and device, whatever the landmark values. -/
theorem generator_applied_to_fresh_noise (b s it ep i n : ℕ) (w : NetWeights)
    (r : RNG) (d1 d2 : Batch)
    (hB : d1.B.shape = d2.B.shape) (hdev : d1.B.device = d2.B.device) :
    (iterEvents b s it ep i n).countP isForwardGNoise = 1
    ∧ (iterEvents b s it ep i n).countP isForwardGDataA = 0
    ∧ (iterEvents b s it ep i n).filterMap noiseShapeOf = [loopNoiseShape b s]
    ∧ loopFake w r d1 = loopFake w r d2 := by
  refine ⟨?_, ?_, ?_, ?_⟩
  · rw [iterEvents, List.countP_append, List.countP_append,
      countP_bookkeeping _ _ _ _ _ rfl rfl rfl rfl rfl rfl]
    rfl
  · rw [iterEvents, List.countP_append, List.countP_append,
      countP_bookkeeping _ _ _ _ _ rfl rfl rfl rfl rfl rfl]
    rfl
  · rw [iterEvents, List.filterMap_append, List.filterMap_append,
      filterMap_noiseShape_bookkeeping]
    rfl
  · unfold loopFake
    simp only [sizeAt]
    rw [hB, hdev]

/-- C1, witness for the amended theorem at the two concrete batches. -/
theorem generator_applied_to_fresh_noise_witness :
    batchA0.B.shape = batchA1.B.shape
    ∧ batchA0.B.device = batchA1.B.device
    ∧ ((iterEvents 64 1 0 0 0 1).countP isForwardGNoise = 1
       ∧ (iterEvents 64 1 0 0 0 1).countP isForwardGDataA = 0
       ∧ (iterEvents 64 1 0 0 0 1).filterMap noiseShapeOf = [loopNoiseShape 64 1]
       ∧ loopFake w0 zeroRNG batchA0 = loopFake w0 zeroRNG batchA1) :=
  ⟨rfl, rfl,
    generator_applied_to_fresh_noise 64 1 0 0 0 1 w0 zeroRNG batchA0 batchA1 rfl rfl⟩

/-- C2: `Generator.forward` never reads the values of its input tensor:
for any two inputs with the same batch size (`shape[0]`), the same sequence
length (`shape[1]`) and the same device, and under the same random-number
generator state, it returns identical outputs and identical final RNG
states. -/
theorem generator_output_ignores_input_values (w : NetWeights) (r : RNG)
    (x1 x2 : RTensor) (hb : x1.shape.headD 0 = x2.shape.headD 0)
    (hs : sizeAt x1 1 = sizeAt x2 1) (hdev : x1.device = x2.device) :
    gForward w x1 r = gForward w x2 r :=
  gForward_eq_of_dims w r x1 x2 hb hs hdev

/-- Two concrete generator inputs with equal batch size, sequence length
and device but different shapes elsewhere and different values everywhere. -/
def xw1 : RTensor := constT [2, 1, 3, 64, 64] 0

def xw2 : RTensor := constT [2, 1, 5] 7

/-- C2, witness at two concrete value-wise different inputs. -/
theorem generator_output_ignores_input_values_witness :
    xw1.shape.headD 0 = xw2.shape.headD 0
    ∧ sizeAt xw1 1 = sizeAt xw2 1
    ∧ xw1.device = xw2.device
    ∧ xw1.data [0, 0, 0, 0, 0] ≠ xw2.data [0, 0, 0, 0, 0]
    ∧ gForward w0 xw1 zeroRNG = gForward w0 xw2 zeroRNG :=
  ⟨rfl, rfl, rfl,
    by show (0 : ℝ) ≠ 7; norm_num,
    generator_output_ignores_input_values w0 zeroRNG xw1 xw2 rfl rfl rfl⟩

/-! ## Helper lemmas about the discriminator's shapes and values -/

lemma dModel_shape_mk (w : NetWeights) (sh : List ℕ) (dv : ℕ)
    (f : List ℕ → ℝ) (n : ℕ) (ht : sh = [n, 3, 64, 64]) :
    (dModel w ⟨sh, dv, f⟩).shape = [n, 1, 1, 1] := by
  subst ht
  rfl

lemma dModel_shape (w : NetWeights) (t : RTensor) (n : ℕ)
    (ht : t.shape = [n, 3, 64, 64]) : (dModel w t).shape = [n, 1, 1, 1] := by
  obtain ⟨sh, dv, f⟩ := t
  exact dModel_shape_mk w sh dv f n ht

lemma stack1_shape_cons (y : RTensor) (ys : List RTensor) :
    (stack1 (y :: ys)).shape = y.shape.headD 0 :: (ys.length + 1) :: y.shape.tail :=
  rfl

lemma dForward_shape (w : NetWeights) (t : RTensor) (b s : ℕ)
    (ht : t.shape = [b, s, 3, 64, 64]) (hs : 0 < s) :
    (dForward w t).shape = [b, s, 1, 1, 1] := by
  obtain ⟨k, rfl⟩ : ∃ k, s = k + 1 := ⟨s - 1, by omega⟩
  unfold dForward
  have hsz : sizeAt t 1 = k + 1 := by simp [sizeAt, ht]
  rw [hsz, List.range_succ_eq_map, List.map_cons, stack1_shape_cons]
  have hhead : (dModel w (sliceSeq t 0)).shape = [b, 1, 1, 1] :=
    dModel_shape w _ b (by simp [sliceSeq, ht])
  rw [hhead]
  simp [List.length_map, List.length_range]

lemma sigmoid_mem_Icc (x : ℝ) : sigmoid x ∈ Set.Icc (0 : ℝ) 1 := by
  have h := Real.exp_pos (-x)
  unfold sigmoid
  constructor
  · positivity
  · rw [div_le_one (by positivity)]
    linarith

lemma dModel_data_mem (w : NetWeights) (t : RTensor) (idx : List ℕ) :
    (dModel w t).data idx ∈ Set.Icc (0 : ℝ) 1 := by
  exact sigmoid_mem_Icc _

lemma stack1_data_mem (ys : List RTensor)
    (h : ∀ y ∈ ys, ∀ idx, y.data idx ∈ Set.Icc (0 : ℝ) 1) (idx : List ℕ) :
    (stack1 ys).data idx ∈ Set.Icc (0 : ℝ) 1 := by
  cases ys with
  | nil => exact ⟨le_refl 0, zero_le_one⟩
  | cons y ys =>
    rcases idx with _ | ⟨b2, _ | ⟨s2, rest⟩⟩
    · exact ⟨le_refl 0, zero_le_one⟩
    · exact ⟨le_refl 0, zero_le_one⟩
    · show ((y :: ys).getD s2 default).data (b2 :: rest) ∈ Set.Icc (0 : ℝ) 1
      rcases Nat.lt_or_ge s2 (y :: ys).length with hlt | hge
      · rw [List.getD_eq_getElem _ _ hlt]
        exact h _ (List.getElem_mem _) _
      · rw [List.getD_eq_default _ _ hge]
        exact ⟨le_refl 0, zero_le_one⟩

/-- C9, counterexample: at sequence length 0 the forward pass does not
return a tensor of the claimed shape (in the code, `torch.stack` on the
empty slice list raises instead of returning). -/
theorem discriminator_fails_on_empty_sequence :
    (dForward w0 (constT [1, 0, 3, 64, 64] 0)).shape ≠ [1, 0, 1, 1, 1] := by
  show ([] : List ℕ) ≠ [1, 0, 1, 1, 1]
  simp

/-- C9, amended: for every input of shape `[b, s, 3, 64, 64]` with a
non-empty sequence dimension (`torch.stack` requires the slice list to be
non-empty), `Discriminator.forward` returns a tensor of shape
`[b, s, 1, 1, 1]` whose entries all lie in `[0, 1]`, the range of the final
sigmoid. -/
theorem discriminator_shape_and_sigmoid_range (w : NetWeights) (t : RTensor)
    (b s : ℕ) (ht : t.shape = [b, s, 3, 64, 64]) (hs : 0 < s) :
    (dForward w t).shape = [b, s, 1, 1, 1]
    ∧ ∀ idx, (dForward w t).data idx ∈ Set.Icc (0 : ℝ) 1 := by
  refine ⟨dForward_shape w t b s ht hs, ?_⟩
  intro idx
  unfold dForward
  refine stack1_data_mem _ ?_ idx
  intro y hy idx2
  obtain ⟨i, -, rfl⟩ := List.mem_map.mp hy
  exact dModel_data_mem w _ idx2

/-- A concrete discriminator input of shape `[1, 1, 3, 64, 64]`. -/
def t9 : RTensor := constT [1, 1, 3, 64, 64] 0

/-- C9, witness for the amended theorem at a concrete input. -/
theorem discriminator_shape_and_sigmoid_range_witness :
    t9.shape = [1, 1, 3, 64, 64]
    ∧ 0 < 1
    ∧ ((dForward w0 t9).shape = [1, 1, 1, 1, 1]
       ∧ ∀ idx, (dForward w0 t9).data idx ∈ Set.Icc (0 : ℝ) 1) :=
  ⟨rfl, Nat.one_pos,
    discriminator_shape_and_sigmoid_range w0 t9 1 1 rfl Nat.one_pos⟩
